import Mathlib

/-!
Shallow embedding of the ChainBank loan subsystem
(`internal/app/loan/service.go` and the loan repository) together with
proofs about its disbursement, settlement, offer-acceptance and query
behaviour.

Modelling conventions:
* Go `float64` amounts, rates and day counts are modelled by exact
  rationals (`ℚ`); rounding of binary floating point is below the level
  of every property proved here.
* Timestamps are rationals measured in days (RFC3339 string round-trips
  in the Go structs are abstracted away; `NOW()` is an explicit `now`
  argument).
* The relational store is a record of lists of rows; a SQL `UPDATE ... WHERE`
  is a `List.map` over the rows, a filtered `SELECT` is a `List.filter`,
  and a SQL transaction either commits all its writes or leaves the
  store untouched (rollback).
* External effects (signing, broadcasting, receipts, row-write failures,
  generated UUIDs) are supplied by explicit oracle records, so a theorem
  quantified over oracles covers every schedule of external outcomes.
* Go `panic` (index out of range) is a distinguished outcome constructor,
  separate from returned errors.
-/

namespace ChainBank

/-- Decimal digit to its character, for formatting amounts. -/
def digitChar (d : Nat) : Char :=
  match d with
  | 0 => '0'
  | 1 => '1'
  | 2 => '2'
  | 3 => '3'
  | 4 => '4'
  | 5 => '5'
  | 6 => '6'
  | 7 => '7'
  | 8 => '8'
  | _ => '9'

/-- Numeric value of a decimal digit character. -/
def charDigitVal (c : Char) : Nat := c.toNat - 48

/-- Fuel-based most-significant-first decimal digit expansion of a natural
number (empty for 0; the fuel is always instantiated with the number
itself, which bounds the digit count). -/
def natCharsAux : Nat → Nat → List Char
  | 0, _ => []
  | _ + 1, 0 => []
  | fuel + 1, n => natCharsAux fuel (n / 10) ++ [digitChar (n % 10)]

/-- Decimal digit characters of a natural number, as Go prints it. -/
def natChars (n : Nat) : List Char := if n = 0 then ['0'] else natCharsAux n n

/-- Accumulate a digit-character list into a natural number. -/
def parseDigitsAcc (cs : List Char) : Nat :=
  cs.foldl (fun a c => a * 10 + charDigitVal c) 0

/-- Model of Go `new(big.Int).SetString(s, 10)`: an optional leading sign
followed by a nonempty run of decimal digits; any other character
(in particular a decimal point) makes the parse fail. -/
def bigIntSetString10 (s : String) : Option Int :=
  match s.data with
  | [] => none
  | c :: cs =>
    let neg := c == '-'
    let rest := if c == '-' || c == '+' then cs else c :: cs
    if rest.isEmpty then none
    else if rest.all Char.isDigit then
      let n : Int := Int.ofNat (parseDigitsAcc rest)
      some (if neg then -n else n)
    else none

/-- Round to the nearest integer (ties upward; Go rounds ties to even —
the direction of the tie is irrelevant to every property proved here). -/
def roundRat (q : ℚ) : Int := ⌊q + 1 / 2⌋

/-- Two-digit zero-padded fraction field. -/
def pad2 (n : Nat) : List Char := if n < 10 then ['0', digitChar n] else natChars n

/-- Model of Go `strconv.FormatFloat(x, 'f', 2, 64)`: the value rounded to
two decimal places, printed with a sign, an integer part, a `'.'` and
exactly two fraction digits.  (Go rounds ties to even; the tie-breaking
direction is irrelevant to every property proved here, which only depend
on the presence of the decimal point.) -/
def formatFloat2 (q : ℚ) : String :=
  let cents : Int := roundRat (q * 100)
  ⟨(if q < 0 then ['-'] else []) ++ natChars (cents.natAbs / 100) ++ ['.'] ++ pad2 (cents.natAbs % 100)⟩

/-- Model of Go `strconv.FormatFloat(x, 'f', -1, 64)` (shortest decimal
form): integral values print without a decimal point; non-integral values
print an integer part, a `'.'` and a fraction part (rendered here to 18
places — the development only relies on the integral case and on the
presence of the `'.'` in the non-integral case). -/
def formatFloatMinimal (q : ℚ) : String :=
  if q.den = 1 then
    ⟨(if q < 0 then ['-'] else []) ++ natChars q.num.natAbs⟩
  else
    let scaled : Nat := (⌊|q| * 1000000000000000000⌋).natAbs
    ⟨(if q < 0 then ['-'] else []) ++ natChars (scaled / 1000000000000000000) ++ ['.'] ++ natChars (scaled % 1000000000000000000)⟩

/-! Status strings, exactly as the Go code and SQL write them. -/

def statusOpen : String := "Open"
def statusAccepted : String := "Accepted"
def statusFunded : String := "Funded"
def statusClosed : String := "Closed"
def statusActive : String := "active"
def statusClosedLoan : String := "closed"
def statusOpenApplication : String := "open"

/-! Data model: the row structs of `internal/repo` (loan part). -/

/-- Row of `loan_applications` (struct `Loanapplication`). -/
structure Loanapplication where
  applicationID : String
  borrowerID : String
  amount : ℚ
  interestRate : ℚ
  termMonths : Int
  status : String
deriving DecidableEq

/-- Row of `loan_offers` (struct `LoanOffer`). -/
structure LoanOffer where
  offerID : String
  lenderID : String
  amount : ℚ
  interestRate : ℚ
  loanTermMonths : Int
  status : String
  applicationID : String
deriving DecidableEq

/-- Row of `loans` (struct `Loan`).  Columns that are NULL until settlement
are modelled with `0` / `""` defaults, matching the zero values the Go
struct scan produces. -/
structure Loan where
  loanID : String
  offerID : String
  borrowerID : String
  lenderID : String
  totalPrinciple : ℚ
  remainingPrinciple : ℚ
  status : String
  startDate : ℚ
  nextPaymentDate : ℚ
  applicationID : String
  interestRate : ℚ
  settledAmount : ℚ
  settlementDate : ℚ
  accruedInterest : ℚ
  disbursementTransactionID : String
  settlementTransactionID : String
deriving DecidableEq

/-- Row of `transactions` (struct `Transaction`), as written by
`walletRepo.AddTransaction`. -/
structure Transaction where
  transactionID : String
  senderWalletID : String
  receiverWalletID : String
  amount : ℚ
  transactionType : String
  status : String
  transactionHash : String
  fee : ℚ
deriving DecidableEq

/-- The relational store: the four tables the loan flows touch, plus the
wallet and private-key lookups used by `TransferFunds`.  (The cached
wallet balance column is not modelled; no claim mentions it.) -/
structure LedgerDB where
  applications : List Loanapplication
  offers : List LoanOffer
  loans : List Loan
  transactions : List Transaction
  wallets : List (String × String)
  privateKeys : List (String × String)
deriving DecidableEq

/-- Keyed lookup in an association list (models a single-row SELECT by key). -/
def lookupStr (l : List (String × String)) (k : String) : Option String :=
  (l.find? (fun p => p.1 == k)).map Prod.snd

/-! Elementary store writes, shared by the repository operations. -/

/-- Append a transaction row (`AddTransaction` insert). -/
def insertTransaction (db : LedgerDB) (t : Transaction) : LedgerDB :=
  { db with transactions := db.transactions ++ [t] }

/-- Append an application row. -/
def insertApplication (db : LedgerDB) (a : Loanapplication) : LedgerDB :=
  { db with applications := db.applications ++ [a] }

/-- Append an offer row. -/
def insertOffer (db : LedgerDB) (o : LoanOffer) : LedgerDB :=
  { db with offers := db.offers ++ [o] }

/-- Append a loan row. -/
def insertLoan (db : LedgerDB) (l : Loan) : LedgerDB :=
  { db with loans := db.loans ++ [l] }

/-- Model of `UPDATE loan_offers SET status = s WHERE offer_id = oid`. -/
def setOfferStatus (db : LedgerDB) (oid s : String) : LedgerDB :=
  { db with offers := db.offers.map (fun o => if o.offerID == oid then { o with status := s } else o) }

/-- Model of `UPDATE loan_applications SET status = s WHERE application_id = aid`. -/
def setApplicationStatus (db : LedgerDB) (aid s : String) : LedgerDB :=
  { db with applications := db.applications.map (fun a => if a.applicationID == aid then { a with status := s } else a) }

/-- Model of the blind `acceptLoanOfferStatusUpdationQuery`:
`UPDATE loan_offers SET status = 'Accepted' WHERE offer_id = $1` —
note the absence of any `status = 'Open'` condition. -/
def acceptOfferWrite (db : LedgerDB) (oid : String) : LedgerDB :=
  setOfferStatus db oid statusAccepted

/-- The row update of `settleLoanQuery`:
`UPDATE loans SET settled_amount = $1, accrued_interest = $2,
settlement_date = NOW(), remaining_principle = 0, status = 'closed'
WHERE loan_id = $3`.  The query touches no `settlement_transaction_id`
column, so that field is left as it was. -/
def settleLoanRow (l : Loan) (settledAmount accruedInterest now : ℚ) : Loan :=
  { l with
    settledAmount := settledAmount
    accruedInterest := accruedInterest
    settlementDate := now
    remainingPrinciple := 0
    status := statusClosedLoan }

/-- Apply `settleLoanQuery` to the store. -/
def applySettleLoan (db : LedgerDB) (loanID : String) (settledAmount accruedInterest now : ℚ) : LedgerDB :=
  { db with loans := db.loans.map (fun l => if l.loanID == loanID then settleLoanRow l settledAmount accruedInterest now else l) }

/-! Query functions: the repository builds `WHERE 1=1` plus clauses from
the non-empty parameters; here each branch is the corresponding filter. -/

/-- Model of `loanRepo.GetLoanOffers`: an `offer_id` filter takes
precedence, then an `application_id` filter, otherwise `lender_id` and
`status` combine as an AND filter (each only when non-empty). -/
def GetLoanOffers (db : LedgerDB) (offerID applicationID lenderID status : String) : List LoanOffer :=
  if offerID ≠ "" then
    db.offers.filter (fun o => o.offerID == offerID)
  else if applicationID ≠ "" then
    db.offers.filter (fun o => o.applicationID == applicationID)
  else if lenderID ≠ "" ∧ status ≠ "" then
    db.offers.filter (fun o => o.lenderID == lenderID && o.status == status)
  else if status ≠ "" then
    db.offers.filter (fun o => o.status == status)
  else if lenderID ≠ "" then
    db.offers.filter (fun o => o.lenderID == lenderID)
  else
    db.offers

/-- Model of `loanRepo.GetLoanapplications`: an `application_id` filter
takes precedence, otherwise `borrower_id` and `status` combine as an AND
filter (each only when non-empty). -/
def GetLoanapplications (db : LedgerDB) (applicationID borrowerID status : String) : List Loanapplication :=
  if applicationID ≠ "" then
    db.applications.filter (fun a => a.applicationID == applicationID)
  else if borrowerID ≠ "" ∧ status ≠ "" then
    db.applications.filter (fun a => a.borrowerID == borrowerID && a.status == status)
  else if status ≠ "" then
    db.applications.filter (fun a => a.status == status)
  else if borrowerID ≠ "" then
    db.applications.filter (fun a => a.borrowerID == borrowerID)
  else
    db.applications

/-- Model of `loanRepo.GetLoanDetails`: `loan_id`, then `offer_id`, then
`application_id` each take precedence as a single-key filter; otherwise
the non-empty ones of `borrower_id`, `lender_id`, `status` combine as an
AND filter.  (The Go compound branch numbers its SQL placeholders
incorrectly when two or more compound filters are supplied; that branch
is never exercised by the flows verified here, which always pass a
single key.) -/
def GetLoanDetails (db : LedgerDB) (loanID offerID borrowerID lenderID status applicationID : String) : List Loan :=
  if loanID ≠ "" then
    db.loans.filter (fun l => l.loanID == loanID)
  else if offerID ≠ "" then
    db.loans.filter (fun l => l.offerID == offerID)
  else if applicationID ≠ "" then
    db.loans.filter (fun l => l.applicationID == applicationID)
  else
    db.loans.filter (fun l =>
      (borrowerID == "" || l.borrowerID == borrowerID) &&
      (lenderID == "" || l.lenderID == lenderID) &&
      (status == "" || l.status == status))

/-! Outcomes and oracles. -/

/-- Result of a Go function returning `(T, error)`; `crash` models a
runtime panic (e.g. an out-of-range slice index), which is not an error
return. -/
inductive GoOutcome (α : Type) where
  | ok (a : α)
  | error (msg : String)
  | crash (msg : String)
deriving DecidableEq

/-- Outcomes of the external-effect steps of one `TransferFunds` call:
`keyOK` models `crypto.HexToECDSA` succeeding on the stored key string,
`signOK` the `ethRepo.TransferFunds` signing call, `sendOK` the
`SendTransaction` broadcast (the irreversible fund movement), `receiptOK`
the receipt fetch, `addTransactionOK` the transaction-row insert;
`freshTransactionID` is the generated `uuid.New()`, `txHash` the hash of
the signed transaction, and `gasUsed` the receipt's gas figure. -/
structure EthOracle where
  keyOK : Bool
  signOK : Bool
  sendOK : Bool
  receiptOK : Bool
  addTransactionOK : Bool
  freshTransactionID : String
  txHash : String
  gasUsed : Nat
deriving DecidableEq

/-- Outcomes of the store writes inside one repository transaction
(`BeginTx`, the successive statements, `Commit`), plus the generated
loan UUID for `DisburseLoan`. -/
structure RepoOracle where
  beginOK : Bool
  write1OK : Bool
  write2OK : Bool
  write3OK : Bool
  commitOK : Bool
  freshLoanID : String
deriving DecidableEq

/-- Result of a transfer-bearing service operation: the Go return value,
the store afterwards, and how many irreversible broadcasts the Settlement
Network executed during the call. -/
structure OpResult (α : Type) where
  result : GoOutcome α
  db : LedgerDB
  broadcasts : Nat
deriving DecidableEq

def errKYCNotVerified : String := "User is not KYC Veried"
def errInvalidInput : String := "invalid input parameters"
def errAcceptOfferFailed : String := "failed to update offer status or retrieve updated loan offer"
def errBeginTx : String := "failed to begin transaction"
def errCreateLoanRecord : String := "failed to create loan record"
def errOfferFunded : String := "failed to update loan offer status to Funded"
def errApplicationFunded : String := "failed to update loan application status to Funded"
def errCommit : String := "transaction commit failed"
def errSettleLoanRepo : String := "failed to settle loan"
def errApplicationClosed : String := "failed to update loan application status"
def errOfferClosed : String := "failed to update loan offer status"
def errLoanNotFound : String := "loan not found"
def errNotBorrower : String := "user is not the borrower of this loan"
def errNeitherParty : String := "user is neither borrower nor lender"
def msgTransferFundsFailed : String := "failed to transfer funds: "
def msgCalcPayableFailed : String := "failed to calculate total payable: "
def msgSettleLoanFailed : String := "failed to settle loan: "
def errSenderWalletNotFound : String := "sender wallet not found"
def errRecipientWalletNotFound : String := "recipient wallet not found"
def errRetrievingPrivateKey : String := "error retrieving private key"
def errInvalidPrivateKey : String := "invalid private key"
def errInvalidAmountFormat : String := "invalid amount format"
def errTransactionFailed : String := "transaction failed"
def errBroadcastFailed : String := "failed to broadcast transaction"
def errReceiptFailed : String := "failed to get transaction receipt"
def errAddTransactionFailed : String := "failed to add transaction to database"

/-- Model of `service.TransferFunds` (`internal/app/loan/service.go`):
resolve both wallets, retrieve and parse the sender's private key, parse
the amount with `big.Int.SetString(amountETH, 10)`, sign, broadcast,
fetch the receipt, and insert the transaction row (type `"Debt"`,
status `"completed"`).  The best-effort cached-balance refresh at the end
touches only the unmodelled balance column.  The broadcast counter
becomes 1 exactly when `SendTransaction` succeeded. -/
def TransferFunds (o : EthOracle) (db : LedgerDB) (userID recipientID amountETH : String) : OpResult Transaction :=
  match lookupStr db.wallets userID with
  | none => ⟨.error errSenderWalletNotFound, db, 0⟩
  | some senderWalletID =>
    match lookupStr db.wallets recipientID with
    | none => ⟨.error errRecipientWalletNotFound, db, 0⟩
    | some recipientWalletID =>
      match lookupStr db.privateKeys userID with
      | none => ⟨.error errRetrievingPrivateKey, db, 0⟩
      | some _privateKeyHex =>
        if !o.keyOK then ⟨.error errInvalidPrivateKey, db, 0⟩
        else
          match bigIntSetString10 amountETH with
          | none => ⟨.error errInvalidAmountFormat, db, 0⟩
          | some amount =>
            if !o.signOK then ⟨.error errTransactionFailed, db, 0⟩
            else if !o.sendOK then ⟨.error errBroadcastFailed, db, 0⟩
            else if !o.receiptOK then ⟨.error errReceiptFailed, db, 1⟩
            else
              let fee : ℚ := (o.gasUsed : ℚ) * 20000000000
              let txn : Transaction :=
                { transactionID := o.freshTransactionID
                  senderWalletID := senderWalletID
                  receiverWalletID := recipientWalletID
                  amount := (amount : ℚ)
                  transactionType := "Debt"
                  status := "completed"
                  transactionHash := o.txHash
                  fee := fee }
              if !o.addTransactionOK then ⟨.error errAddTransactionFailed, db, 1⟩
              else ⟨.ok txn, insertTransaction db txn, 1⟩

/-! Repository operations (`src/unnamed/part_012`). -/

/-- Model of `loanRepo.AcceptLoanOffer`: run the blind status update and
return the updated row; `QueryRow ... RETURNING` yields `sql.ErrNoRows`
(an error) only when no row matches the offer id.  No current-status
check of any kind is performed. -/
def AcceptLoanOffer (db : LedgerDB) (offerID _borrowerID : String) : GoOutcome LoanOffer × LedgerDB :=
  match db.offers.find? (fun o => o.offerID == offerID) with
  | none => (.error errAcceptOfferFailed, db)
  | some o => (.ok { o with status := statusAccepted }, acceptOfferWrite db offerID)

/-- The loan row that `DisburseLoanQuery` inserts: both principal columns
carry the offered principal, status `'active'`, `start_date = NOW()`,
and zero/empty settlement columns. -/
def mkDisbursedLoan (loanID offerID borrowerID lenderID applicationID : String)
    (totalPrinciple interestRate : ℚ) (now nextPaymentDate : ℚ)
    (disbursementTransactionID : String) : Loan :=
  { loanID := loanID
    offerID := offerID
    borrowerID := borrowerID
    lenderID := lenderID
    totalPrinciple := totalPrinciple
    remainingPrinciple := totalPrinciple
    status := statusActive
    startDate := now
    nextPaymentDate := nextPaymentDate
    applicationID := applicationID
    interestRate := interestRate
    settledAmount := 0
    settlementDate := 0
    accruedInterest := 0
    disbursementTransactionID := disbursementTransactionID
    settlementTransactionID := "" }

/-- Model of `loanRepo.DisburseLoan`: inside one store transaction insert
the loan row (`total_principle` and `remaining_principle` both the given
principal, status `'active'`, `start_date = NOW()`), set the offer status
to `'Funded'`, set the application status to `'Funded'`, then commit; any
failing step rolls the transaction back, leaving the store untouched. -/
def RepoDisburseLoan (ro : RepoOracle) (now : ℚ) (db : LedgerDB)
    (offerID borrowerID lenderID applicationID : String)
    (totalPrinciple interestRate : ℚ) (nextPaymentDate : ℚ)
    (disbursementTransactionID : String) : GoOutcome Loan × LedgerDB :=
  if !ro.beginOK then (.error errBeginTx, db)
  else
    let loan : Loan := mkDisbursedLoan ro.freshLoanID offerID borrowerID lenderID
      applicationID totalPrinciple interestRate now nextPaymentDate disbursementTransactionID
    if !ro.write1OK then (.error errCreateLoanRecord, db)
    else if !ro.write2OK then (.error errOfferFunded, db)
    else if !ro.write3OK then (.error errApplicationFunded, db)
    else if !ro.commitOK then (.error errCommit, db)
    else (.ok loan, setApplicationStatus (setOfferStatus (insertLoan db loan) offerID statusFunded) applicationID statusFunded)

/-- Model of `loanRepo.SettleLoan`: inside one store transaction run
`settleLoanQuery` (whose `RETURNING` errors when no row matches the loan
id), set the application status to `'Closed'`, set the offer status to
`'Closed'`, then commit; any failing step rolls back.  The
`settlementTransactionID` argument is accepted but never used: the SQL
statement carries no such column. -/
def RepoSettleLoan (ro : RepoOracle) (now : ℚ) (db : LedgerDB) (loanID : String)
    (settledAmount accruedInterest : ℚ) (_settlementTransactionID : String) :
    GoOutcome Loan × LedgerDB :=
  if !ro.beginOK then (.error errBeginTx, db)
  else
    match db.loans.find? (fun l => l.loanID == loanID) with
    | none => (.error errSettleLoanRepo, db)
    | some l0 =>
      if !ro.write1OK then (.error errSettleLoanRepo, db)
      else
        let l1 := settleLoanRow l0 settledAmount accruedInterest now
        if !ro.write2OK then (.error errApplicationClosed, db)
        else if !ro.write3OK then (.error errOfferClosed, db)
        else if !ro.commitOK then (.error errCommit, db)
        else (.ok l1, setOfferStatus (setApplicationStatus (applySettleLoan db loanID settledAmount accruedInterest now) l0.applicationID statusClosed) l0.offerID statusClosed)

/-! Service layer (`internal/app/loan/service.go`). -/

/-- Message of a Go index-out-of-range panic. -/
def panicIndexOutOfRange : String := "runtime error: index out of range"

/-- Model of Go `time.Now().AddDate(0, m, 0)`: adding `m` calendar months
to a timestamp.  Calendar month lengths are abstracted to the canonical
30-day month; the model is used both for the code and for the claims, and
no verified property depends on the length of a particular month. -/
def addDateMonths (t : ℚ) (m : Int) : ℚ := t + 30 * m

/-- Model of `service.CreateLoanapplication`: the KYC gate (its store
lookup outcome passed as `kycOK`), the positivity validation, then the
insert with status `'open'`; `freshID` is the generated `uuid.New()`. -/
def ServiceCreateLoanapplication (kycOK : Bool) (freshID : String) (db : LedgerDB)
    (borrowerID : String) (amount interestRate : ℚ) (termMonths : Int) :
    GoOutcome Loanapplication × LedgerDB :=
  if !kycOK then (.error errKYCNotVerified, db)
  else if borrowerID = "" ∨ amount ≤ 0 ∨ interestRate ≤ 0 ∨ termMonths ≤ 0 then
    (.error errInvalidInput, db)
  else
    let app : Loanapplication :=
      { applicationID := freshID
        borrowerID := borrowerID
        amount := amount
        interestRate := interestRate
        termMonths := termMonths
        status := statusOpenApplication }
    (.ok app, insertApplication db app)

/-- Model of `service.CreateLoanOffer`: the KYC gate, the positivity
validation, then the insert with status `'Open'`. -/
def ServiceCreateLoanOffer (kycOK : Bool) (freshID : String) (db : LedgerDB)
    (lenderID : String) (amount interestRate : ℚ) (termMonths : Int)
    (applicationID : String) : GoOutcome LoanOffer × LedgerDB :=
  if !kycOK then (.error errKYCNotVerified, db)
  else if lenderID = "" ∨ amount ≤ 0 ∨ interestRate ≤ 0 ∨ termMonths ≤ 0 ∨ applicationID = "" then
    (.error errInvalidInput, db)
  else
    let offer : LoanOffer :=
      { offerID := freshID
        lenderID := lenderID
        amount := amount
        interestRate := interestRate
        loanTermMonths := termMonths
        status := statusOpen
        applicationID := applicationID }
    (.ok offer, insertOffer db offer)

/-- Model of `service.AcceptOffer`: a direct delegation to
`loanRepo.AcceptLoanOffer`. -/
def ServiceAcceptOffer (db : LedgerDB) (offerID borrowerID : String) :
    GoOutcome LoanOffer × LedgerDB :=
  AcceptLoanOffer db offerID borrowerID

/-- Model of `service.DisburseLoan`: fetch the offer by id and the parent
application, format the offer amount with `FormatFloat(.., 'f', -1, 64)`,
transfer lender → borrower, then run the repository disbursement with
`next_payment_date = now + term months`.  The Go code indexes `offer[0]`
and `application[0]` without a length check, so an empty query result is
a runtime panic, not an error return.  The `lenderID` argument is unused
by the Go function (authorization happens in the HTTP handler). -/
def ServiceDisburseLoan (o : EthOracle) (ro : RepoOracle) (now : ℚ) (db : LedgerDB)
    (_lenderID offerID : String) : OpResult Loan :=
  match GetLoanOffers db offerID "" "" "" with
  | [] => ⟨.crash panicIndexOutOfRange, db, 0⟩
  | offer :: _ =>
    match GetLoanapplications db offer.applicationID "" "" with
    | [] => ⟨.crash panicIndexOutOfRange, db, 0⟩
    | app :: _ =>
      match TransferFunds o db offer.lenderID app.borrowerID (formatFloatMinimal offer.amount) with
      | ⟨.error e, db1, b⟩ => ⟨.error e, db1, b⟩
      | ⟨.crash m, db1, b⟩ => ⟨.crash m, db1, b⟩
      | ⟨.ok txn, db1, b⟩ =>
        match RepoDisburseLoan ro now db1 offer.offerID app.borrowerID offer.lenderID
            app.applicationID offer.amount offer.interestRate
            (addDateMonths now offer.loanTermMonths) txn.transactionID with
        | (.ok loan, db2) => ⟨.ok loan, db2, b⟩
        | (.error m, db2) => ⟨.error m, db2, b⟩
        | (.crash m, db2) => ⟨.crash m, db2, b⟩

/-- Model of `service.CalculateTotalPayable`: fetch the loan, check the
caller is borrower or lender, then compute
`interest = principal * rate / 100 * (daysElapsed / 365)` with
`daysElapsed = max(0, now - start_date)`, a penalty of one-tenth of one
month's interest per full 30-day block overdue (only when
`now > next_payment_date`), `fees = 0`, and their sum. -/
structure PayableBreakdown where
  loanID : String
  principal : ℚ
  interest : ℚ
  fees : ℚ
  penalty : ℚ
  totalPayable : ℚ
deriving DecidableEq

def CalculateTotalPayable (now : ℚ) (db : LedgerDB) (loanID userID : String) :
    GoOutcome PayableBreakdown :=
  match GetLoanDetails db loanID "" "" "" "" "" with
  | [] => .error errLoanNotFound
  | loan :: _ =>
    if loan.borrowerID ≠ userID ∧ loan.lenderID ≠ userID then
      .error errNeitherParty
    else
      let timeSinceStart := if now - loan.startDate < 0 then 0 else now - loan.startDate
      let daysElapsed := timeSinceStart
      let yearlyInterest := loan.totalPrinciple * loan.interestRate / 100
      let interest := yearlyInterest * (daysElapsed / 365)
      let penalty : ℚ :=
        if loan.nextPaymentDate < now then
          let monthsOverdue : Int := ⌊(now - loan.nextPaymentDate) / 30⌋
          loan.totalPrinciple * loan.interestRate / 100 / 12 * (monthsOverdue : ℚ) * (0.10 : ℚ)
        else 0
      let fees : ℚ := 0
      .ok
        { loanID := loan.loanID
          principal := loan.totalPrinciple
          interest := interest
          fees := fees
          penalty := penalty
          totalPayable := loan.totalPrinciple + interest + fees + penalty }

/-- Model of `service.SettleLoan`: fetch the loan, check the caller is the
borrower (no loan-status check appears anywhere), compute the payable,
transfer `FormatFloat(total, 'f', 2, 64)` borrower → lender, then run the
repository settlement passing `accruedInterest = 0` (the literal zero in
the Go call) and the internal transaction id (which the repository
ignores). -/
def ServiceSettleLoan (o : EthOracle) (ro : RepoOracle) (now : ℚ) (db : LedgerDB)
    (userID loanID : String) : OpResult Loan :=
  match GetLoanDetails db loanID "" "" "" "" "" with
  | [] => ⟨.error errLoanNotFound, db, 0⟩
  | loan :: _ =>
    if loan.borrowerID ≠ userID then
      ⟨.error errNotBorrower, db, 0⟩
    else
      match CalculateTotalPayable now db loan.loanID userID with
      | .error m => ⟨.error (msgCalcPayableFailed ++ m), db, 0⟩
      | .crash m => ⟨.crash m, db, 0⟩
      | .ok pb =>
        match TransferFunds o db userID loan.lenderID (formatFloat2 pb.totalPayable) with
        | ⟨.error e, db1, b⟩ => ⟨.error (msgTransferFundsFailed ++ e), db1, b⟩
        | ⟨.crash m, db1, b⟩ => ⟨.crash m, db1, b⟩
        | ⟨.ok txn, db1, b⟩ =>
          match RepoSettleLoan ro now db1 loan.loanID pb.totalPayable 0 txn.transactionID with
          | (.ok sl, db2) => ⟨.ok sl, db2, b⟩
          | (.error m, db2) => ⟨.error (msgSettleLoanFailed ++ m), db2, b⟩
          | (.crash m, db2) => ⟨.crash m, db2, b⟩

/-! Operation sequences over the store, for the global invariant. -/

/-- One externally triggered operation, with the external outcomes it
observed. -/
inductive Op where
  | createApplication (kycOK : Bool) (freshID borrowerID : String)
      (amount interestRate : ℚ) (termMonths : Int)
  | createOffer (kycOK : Bool) (freshID lenderID : String)
      (amount interestRate : ℚ) (termMonths : Int) (applicationID : String)
  | acceptOffer (offerID borrowerID : String)
  | disburse (o : EthOracle) (ro : RepoOracle) (now : ℚ) (lenderID offerID : String)
  | settle (o : EthOracle) (ro : RepoOracle) (now : ℚ) (userID loanID : String)

/-- The store after one operation. -/
def stepOp (db : LedgerDB) : Op → LedgerDB
  | .createApplication k f b a i t => (ServiceCreateLoanapplication k f db b a i t).2
  | .createOffer k f l a i t ap => (ServiceCreateLoanOffer k f db l a i t ap).2
  | .acceptOffer oid bid => (ServiceAcceptOffer db oid bid).2
  | .disburse o ro now l oid => (ServiceDisburseLoan o ro now db l oid).db
  | .settle o ro now u lid => (ServiceSettleLoan o ro now db u lid).db

/-- The store after a sequence of operations. -/
def runOps (db : LedgerDB) (ops : List Op) : LedgerDB := ops.foldl stepOp db

/-- Nonnegativity of the money columns of every offer row. -/
def OffersNonneg (db : LedgerDB) : Prop :=
  ∀ o ∈ db.offers, 0 ≤ o.amount ∧ 0 ≤ o.interestRate

/-- Nonnegativity of the money columns of every loan row. -/
def LoansNonneg (db : LedgerDB) : Prop :=
  ∀ l ∈ db.loans,
    0 ≤ l.totalPrinciple ∧ 0 ≤ l.remainingPrinciple ∧ 0 ≤ l.settledAmount ∧ 0 ≤ l.interestRate

/-- The inductive invariant: every stored offer and loan has nonnegative
money columns. -/
def Inv (db : LedgerDB) : Prop := OffersNonneg db ∧ LoansNonneg db

/-! Claim-side formulas and concrete instances used by the theorems. -/

/-- Claim formula: `daysElapsed = max(0, now - start_date)`. -/
def specDaysElapsed (now startDate : ℚ) : ℚ := max 0 (now - startDate)

/-- Claim formula: `interest = (principal * interestRate / 100) * daysElapsed / 365`. -/
def specInterest (now : ℚ) (l : Loan) : ℚ :=
  l.totalPrinciple * l.interestRate / 100 * specDaysElapsed now l.startDate / 365

/-- Claim formula: `penalty = 0` when `now <= next_payment_date`, otherwise
`(principal * interestRate / 100 / 12) * floor(daysOverdue / 30) * 0.10`. -/
def specPenalty (now : ℚ) (l : Loan) : ℚ :=
  if now ≤ l.nextPaymentDate then 0
  else l.totalPrinciple * l.interestRate / 100 / 12 * ((⌊(now - l.nextPaymentDate) / 30⌋ : ℤ) : ℚ) * (1 / 10)

/-- Claim formula: the full breakdown (`fees = 0`,
`total = principal + interest + fees + penalty`). -/
def specPayable (now : ℚ) (l : Loan) : PayableBreakdown :=
  { loanID := l.loanID
    principal := l.totalPrinciple
    interest := specInterest now l
    fees := 0
    penalty := specPenalty now l
    totalPayable := l.totalPrinciple + specInterest now l + 0 + specPenalty now l }

/-- Oracle under which every external step succeeds. -/
def oracleAllOK : EthOracle :=
  { keyOK := true, signOK := true, sendOK := true, receiptOK := true
    addTransactionOK := true, freshTransactionID := "T1", txHash := "H1", gasUsed := 21000 }

/-- Oracle whose broadcast (`SendTransaction`) fails: the transfer itself
fails, nothing irreversible happens. -/
def oracleSendFails : EthOracle := { oracleAllOK with sendOK := false }

/-- Repository oracle under which every store write succeeds. -/
def repoAllOK : RepoOracle :=
  { beginOK := true, write1OK := true, write2OK := true, write3OK := true
    commitOK := true, freshLoanID := "LN1" }

/-- Repository oracle whose first write (the loan insert) fails. -/
def repoInsertFails : RepoOracle := { repoAllOK with write1OK := false }

/-- A lender's offer already in state Accepted (ready for disbursement). -/
def offerAcceptedC : LoanOffer :=
  { offerID := "O1", lenderID := "L", amount := 1000, interestRate := 12
    loanTermMonths := 6, status := statusAccepted, applicationID := "A1" }

/-- An offer already in state Funded. -/
def offerFundedC : LoanOffer := { offerAcceptedC with offerID := "O2", status := statusFunded }

/-- The parent application. -/
def appC : Loanapplication :=
  { applicationID := "A1", borrowerID := "B", amount := 1000, interestRate := 12
    termMonths := 6, status := statusOpenApplication }

/-- Wallet and key tables for the two parties. -/
def walletsC : List (String × String) := [("L", "0xL"), ("B", "0xB")]
def privateKeysC : List (String × String) := [("L", "keyL"), ("B", "keyB")]

/-- Store ready for a disbursement of offer O1. -/
def dbDisburseC : LedgerDB :=
  { applications := [appC], offers := [offerAcceptedC], loans := [], transactions := []
    wallets := walletsC, privateKeys := privateKeysC }

/-- Store whose only offer is already Funded. -/
def dbFundedOfferC : LedgerDB := { dbDisburseC with offers := [offerFundedC] }

/-- An active loan: principal 1000 at 12%, started 365 days before time 0,
payment due 30 days before time 0. -/
def loanActiveC : Loan :=
  mkDisbursedLoan "LN1" "O1" "B" "L" "A1" 1000 12 (-365) (-30) "T0"

/-- The same loan already closed. -/
def loanClosedC : Loan := { loanActiveC with status := statusClosedLoan }

/-- Store ready for a settlement of loan LN1. -/
def dbSettleC : LedgerDB := { dbDisburseC with loans := [loanActiveC] }

/-- Store holding only the closed copy of loan LN1. -/
def dbSettleClosedC : LedgerDB := { dbDisburseC with loans := [loanClosedC] }

/-- Store holding only the party tables — the state before any
application or offer exists. -/
def dbInitC : LedgerDB :=
  { applications := [], offers := [], loans := [], transactions := []
    wallets := walletsC, privateKeys := privateKeysC }

/-- The loan row a successful disbursement of offer O1 at time 0 creates. -/
def loanDisbursedW : Loan :=
  mkDisbursedLoan "LN1" "O1" "B" "L" "A1" 1000 12 0 (addDateMonths 0 6) "T1"

/-- A demonstration run: create an application and an offer, accept the
offer, disburse it, then attempt a settlement. -/
def opsDemoC : List Op :=
  [ .createApplication true "A1" "B" 1000 12 6
  , .createOffer true "O1" "L" 1000 12 6 "A1"
  , .acceptOffer "O1" "B"
  , .disburse oracleAllOK repoAllOK 0 "L" "O1"
  , .settle oracleAllOK repoAllOK 10 "B" "LNX" ]

/-! Basic facts about the digit formatting and the big.Int parse. -/

lemma digitChar_isDigit (d : Nat) : (digitChar d).isDigit = true := by
  unfold digitChar
  split <;> decide

lemma natCharsAux_digits (fuel : Nat) : ∀ (n : Nat), ∀ c ∈ natCharsAux fuel n, c.isDigit = true := by
  induction fuel with
  | zero =>
    intro n c hc
    simp [natCharsAux] at hc
  | succ f ih =>
    intro n c hc
    match n with
    | 0 => simp [natCharsAux] at hc
    | m + 1 =>
      simp only [natCharsAux, List.mem_append, List.mem_singleton] at hc
      rcases hc with h | h
      · exact ih _ c h
      · subst h
        exact digitChar_isDigit _

lemma natChars_digits (n : Nat) : ∀ c ∈ natChars n, c.isDigit = true := by
  intro c hc
  unfold natChars at hc
  split at hc
  · rcases List.mem_singleton.mp hc with rfl
    decide
  · exact natCharsAux_digits n n c hc

lemma not_dash_of_isDigit {c : Char} (h : c.isDigit = true) : (c == '-') = false := by
  cases hb : c == '-'
  · rfl
  · exfalso
    rw [eq_of_beq hb] at h
    simp [Char.isDigit] at h

lemma not_plus_of_isDigit {c : Char} (h : c.isDigit = true) : (c == '+') = false := by
  cases hb : c == '+'
  · rfl
  · exfalso
    rw [eq_of_beq hb] at h
    simp [Char.isDigit] at h

lemma all_isDigit_false_of_dot {l : List Char} (h : ('.') ∈ l) :
    l.all Char.isDigit = false := by
  cases hall : l.all Char.isDigit
  · rfl
  · exfalso
    have := (List.all_eq_true.mp hall) _ h
    simp [Char.isDigit] at this

/-- Go `big.Int.SetString(s, 10)` fails on any string containing a
decimal point. -/
lemma bigIntSetString10_none_of_dot (s : String) (h : ('.') ∈ s.data) :
    bigIntSetString10 s = none := by
  unfold bigIntSetString10
  rcases hs : s.data with _ | ⟨c, cs⟩
  · rw [hs] at h
  · rw [hs] at h
    by_cases hc : (c == '-' || c == '+') = true
    · have hdot : ('.') ∈ cs := by
        rcases List.mem_cons.mp h with hh | hh
        · exfalso
          rcases Bool.or_eq_true_iff.mp hc with h1 | h1
          · rw [eq_of_beq h1] at hh
            exact absurd hh (by decide)
          · rw [eq_of_beq h1] at hh
            exact absurd hh (by decide)
        · exact hh
      cases cs with
      | nil => simp at hdot
      | cons d ds => simp [hc, all_isDigit_false_of_dot hdot]
    · have hc2 : (c == '-' || c == '+') = false := by simpa using hc
      simp [hc2, all_isDigit_false_of_dot h]

/-- The two-decimal format always contains the decimal point. -/
lemma formatFloat2_has_dot (q : ℚ) : ('.') ∈ (formatFloat2 q).data := by
  unfold formatFloat2
  split <;> simp

/-- Consequently `TransferFunds` with a `FormatFloat(..,'f',2,64)` amount
always fails the parse; this is the central fact behind the settlement
behaviour. -/
lemma bigIntSetString10_formatFloat2 (q : ℚ) :
    bigIntSetString10 (formatFloat2 q) = none :=
  bigIntSetString10_none_of_dot _ (formatFloat2_has_dot q)

/-! Shape lemmas for the transfer and repository operations. -/

/-- Every run of `TransferFunds` either succeeds having broadcast once and
appended exactly the returned transaction row, or fails before the
broadcast leaving the store untouched, or fails after the broadcast
(receipt fetch / row insert) leaving the store untouched. -/
lemma TransferFunds_cases (o : EthOracle) (db : LedgerDB) (u r a : String) :
    (∃ t, TransferFunds o db u r a = ⟨.ok t, insertTransaction db t, 1⟩) ∨
    (∃ m, TransferFunds o db u r a = ⟨.error m, db, 0⟩) ∨
    (∃ m, TransferFunds o db u r a = ⟨.error m, db, 1⟩) := by
  unfold TransferFunds
  repeat' split
  all_goals first
    | exact Or.inl ⟨_, rfl⟩
    | exact Or.inr (Or.inl ⟨_, rfl⟩)
    | exact Or.inr (Or.inr ⟨_, rfl⟩)

/-- Either the whole disbursement transaction commits — returning exactly
the inserted row and the store with the row appended and both statuses
flipped — or it rolls back leaving the store untouched. -/
lemma RepoDisburseLoan_cases (ro : RepoOracle) (now : ℚ) (db : LedgerDB)
    (oid bid lid aid : String) (tp ir npd : ℚ) (dtid : String) :
    (RepoDisburseLoan ro now db oid bid lid aid tp ir npd dtid =
      (.ok (mkDisbursedLoan ro.freshLoanID oid bid lid aid tp ir now npd dtid),
        setApplicationStatus
          (setOfferStatus
            (insertLoan db (mkDisbursedLoan ro.freshLoanID oid bid lid aid tp ir now npd dtid))
            oid statusFunded)
          aid statusFunded)) ∨
    (∃ m, RepoDisburseLoan ro now db oid bid lid aid tp ir npd dtid = (.error m, db)) := by
  unfold RepoDisburseLoan
  repeat' split
  all_goals first
    | exact Or.inl rfl
    | exact Or.inr ⟨_, rfl⟩

/-- Either the whole settlement transaction commits — updating the matched
loan row via `settleLoanQuery` and flipping both statuses — or it rolls
back leaving the store untouched. -/
lemma RepoSettleLoan_cases (ro : RepoOracle) (now : ℚ) (db : LedgerDB)
    (lid : String) (sa ai : ℚ) (stid : String) :
    (∃ l0, db.loans.find? (fun l => l.loanID == lid) = some l0 ∧
      RepoSettleLoan ro now db lid sa ai stid =
        (.ok (settleLoanRow l0 sa ai now),
          setOfferStatus
            (setApplicationStatus (applySettleLoan db lid sa ai now) l0.applicationID statusClosed)
            l0.offerID statusClosed)) ∨
    (∃ m, RepoSettleLoan ro now db lid sa ai stid = (.error m, db)) := by
  unfold RepoSettleLoan
  repeat' split
  all_goals first
    | exact Or.inr ⟨_, rfl⟩
    | exact Or.inl ⟨_, by assumption, rfl⟩

/-! Query lemmas. -/

/-- Every result row of `GetLoanOffers` is a stored offer row. -/
lemma GetLoanOffers_subset (db : LedgerDB) (oid aid lid st : String) :
    ∀ x ∈ GetLoanOffers db oid aid lid st, x ∈ db.offers := by
  intro x hx
  unfold GetLoanOffers at hx
  repeat' split at hx
  all_goals first | exact List.mem_of_mem_filter hx | exact hx

/-- Every result row of `GetLoanapplications` is a stored application row. -/
lemma GetLoanapplications_subset (db : LedgerDB) (aid bid st : String) :
    ∀ x ∈ GetLoanapplications db aid bid st, x ∈ db.applications := by
  intro x hx
  unfold GetLoanapplications at hx
  repeat' split at hx
  all_goals first | exact List.mem_of_mem_filter hx | exact hx

/-- Every result row of `GetLoanDetails` is a stored loan row. -/
lemma GetLoanDetails_subset (db : LedgerDB) (lid oid bid led st aid : String) :
    ∀ x ∈ GetLoanDetails db lid oid bid led st aid, x ∈ db.loans := by
  intro x hx
  unfold GetLoanDetails at hx
  repeat' split at hx
  all_goals exact List.mem_of_mem_filter hx

/-- With a non-empty `offer_id`, `GetLoanOffers` is exactly the
single-key filter, whatever the other parameters are. -/
lemma GetLoanOffers_key (db : LedgerDB) (oid aid lid st : String) (h : oid ≠ "") :
    GetLoanOffers db oid aid lid st = db.offers.filter (fun o => o.offerID == oid) := by
  unfold GetLoanOffers
  rw [if_pos h]

/-- With a non-empty `application_id`, `GetLoanapplications` is exactly
the single-key filter, whatever the other parameters are. -/
lemma GetLoanapplications_key (db : LedgerDB) (aid bid st : String) (h : aid ≠ "") :
    GetLoanapplications db aid bid st = db.applications.filter (fun a => a.applicationID == aid) := by
  unfold GetLoanapplications
  rw [if_pos h]

/-- With a non-empty `loan_id`, `GetLoanDetails` is exactly the
single-key filter. -/
lemma GetLoanDetails_key (db : LedgerDB) (lid oid bid led st aid : String) (h : lid ≠ "") :
    GetLoanDetails db lid oid bid led st aid = db.loans.filter (fun l => l.loanID == lid) := by
  unfold GetLoanDetails
  rw [if_pos h]

/-- Without single keys, lender id and status act as an AND filter on the
offers. -/
lemma GetLoanOffers_compound (db : LedgerDB) (lid st : String) (h1 : lid ≠ "") (h2 : st ≠ "") :
    GetLoanOffers db "" "" lid st = db.offers.filter (fun o => o.lenderID == lid && o.status == st) := by
  unfold GetLoanOffers
  rw [if_neg (by simp), if_neg (by simp), if_pos ⟨h1, h2⟩]

/-- Without a single key, borrower id and status act as an AND filter on
the applications. -/
lemma GetLoanapplications_compound (db : LedgerDB) (bid st : String) (h1 : bid ≠ "") (h2 : st ≠ "") :
    GetLoanapplications db "" bid st = db.applications.filter (fun a => a.borrowerID == bid && a.status == st) := by
  unfold GetLoanapplications
  rw [if_neg (by simp), if_pos ⟨h1, h2⟩]

/-! Payable-calculator lemmas. -/

/-- When the loan is found and the caller is a party to it, the
calculator succeeds. -/
lemma CalculateTotalPayable_ok (now : ℚ) (db : LedgerDB) (lid uid : String)
    (loan : Loan) (rest : List Loan)
    (hq : GetLoanDetails db lid "" "" "" "" "" = loan :: rest)
    (hauth : loan.borrowerID = uid ∨ loan.lenderID = uid) :
    ∃ pb, CalculateTotalPayable now db lid uid = .ok pb := by
  unfold CalculateTotalPayable
  rw [hq]
  simp only []
  exact ⟨_, by rw [if_neg (by tauto)]⟩

/-- The calculator computes exactly the documented formula. -/
lemma CalculateTotalPayable_eq_spec (now : ℚ) (db : LedgerDB) (lid uid : String)
    (loan : Loan) (rest : List Loan)
    (hq : GetLoanDetails db lid "" "" "" "" "" = loan :: rest)
    (hauth : loan.borrowerID = uid ∨ loan.lenderID = uid) :
    CalculateTotalPayable now db lid uid = .ok (specPayable now loan) := by
  unfold CalculateTotalPayable
  rw [hq]
  simp only []
  rw [if_neg (by tauto)]
  have hmax : (if now - loan.startDate < 0 then 0 else now - loan.startDate) =
      max 0 (now - loan.startDate) := by
    rcases lt_or_le (now - loan.startDate) 0 with h | h
    · rw [if_pos h, max_eq_left h.le]
    · rw [if_neg (not_lt.mpr h), max_eq_right h]
  unfold specPayable specInterest specPenalty specDaysElapsed
  rw [GoOutcome.ok.injEq, PayableBreakdown.mk.injEq]
  refine ⟨rfl, rfl, by rw [hmax]; ring, rfl, ?_, ?_⟩
  · rcases lt_or_le loan.nextPaymentDate now with h | h
    · rw [if_pos h, if_neg (not_le.mpr h)]
      norm_num
    · rw [if_neg (not_lt.mpr h), if_pos h]
  · rw [hmax]
    rcases lt_or_le loan.nextPaymentDate now with h | h
    · rw [if_pos h, if_neg (not_le.mpr h)]
      ring_nf
    · rw [if_neg (not_lt.mpr h), if_pos h]
      ring

/-! Transfer- and service-level lemmas. -/

/-- When both wallets and the key resolve, a transfer whose amount was
formatted with two decimal places fails the big.Int parse and returns
before any irreversible or persistent step. -/
lemma TransferFunds_formatFloat2 (o : EthOracle) (db : LedgerDB) (u r : String) (q : ℚ)
    (w1 w2 kk : String)
    (hw1 : lookupStr db.wallets u = some w1)
    (hw2 : lookupStr db.wallets r = some w2)
    (hk : lookupStr db.privateKeys u = some kk)
    (hko : o.keyOK = true) :
    TransferFunds o db u r (formatFloat2 q) = ⟨.error errInvalidAmountFormat, db, 0⟩ := by
  unfold TransferFunds
  rw [hw1, hw2, hk, hko, bigIntSetString10_formatFloat2]
  rfl

/-- Every settlement attempt that passes the loan lookup and the borrower
check dies at the amount parse inside `TransferFunds`: the store is left
unchanged, nothing is broadcast, and the caller sees the wrapped
`invalid amount format` error. -/
lemma ServiceSettleLoan_reaches_format_error (o : EthOracle) (ro : RepoOracle) (now : ℚ)
    (db : LedgerDB) (uid lid : String) (loan : Loan) (rest : List Loan) (w1 w2 kk : String)
    (hlid : lid ≠ "")
    (hq : GetLoanDetails db lid "" "" "" "" "" = loan :: rest)
    (hb : loan.borrowerID = uid)
    (hw1 : lookupStr db.wallets uid = some w1)
    (hw2 : lookupStr db.wallets loan.lenderID = some w2)
    (hk : lookupStr db.privateKeys uid = some kk)
    (hko : o.keyOK = true) :
    ServiceSettleLoan o ro now db uid lid =
      ⟨.error (msgTransferFundsFailed ++ errInvalidAmountFormat), db, 0⟩ := by
  have hmem : loan ∈ GetLoanDetails db lid "" "" "" "" "" := by
    rw [hq]
    exact List.mem_cons_self _ _
  have hLoanID : loan.loanID = lid := by
    rw [GetLoanDetails_key db lid "" "" "" "" "" hlid] at hmem
    exact eq_of_beq (List.mem_filter.mp hmem).2
  have hq2 : GetLoanDetails db loan.loanID "" "" "" "" "" = loan :: rest := by
    rw [hLoanID]
    exact hq
  obtain ⟨pb, hcalc⟩ := CalculateTotalPayable_ok now db loan.loanID uid loan rest hq2 (Or.inl hb)
  have htr := TransferFunds_formatFloat2 o db uid loan.lenderID pb.totalPayable w1 w2 kk hw1 hw2 hk hko
  unfold ServiceSettleLoan
  rw [hq]
  simp only []
  rw [if_neg (by simp [hb]), hcalc]
  simp only []
  rw [htr]

/-- Global shape facts for `service.DisburseLoan`: a run that broadcast
nothing left the store untouched; a successful run broadcast exactly
once; a failed run (of any kind) created no loan row. -/
lemma ServiceDisburseLoan_facts (o : EthOracle) (ro : RepoOracle) (now : ℚ) (db : LedgerDB)
    (lid oid : String) :
    ((ServiceDisburseLoan o ro now db lid oid).broadcasts = 0 →
      (ServiceDisburseLoan o ro now db lid oid).db = db) ∧
    (∀ l, (ServiceDisburseLoan o ro now db lid oid).result = .ok l →
      (ServiceDisburseLoan o ro now db lid oid).broadcasts = 1) ∧
    ((∀ l, (ServiceDisburseLoan o ro now db lid oid).result ≠ .ok l) →
      (ServiceDisburseLoan o ro now db lid oid).db.loans = db.loans) := by
  unfold ServiceDisburseLoan
  cases hoff : GetLoanOffers db oid "" "" "" with
  | nil => exact ⟨fun _ => rfl, fun l hl => absurd hl (by simp), fun _ => rfl⟩
  | cons offer orest =>
    simp only []
    cases happ : GetLoanapplications db offer.applicationID "" "" with
    | nil => exact ⟨fun _ => rfl, fun l hl => absurd hl (by simp), fun _ => rfl⟩
    | cons app arest =>
      simp only []
      rcases TransferFunds_cases o db offer.lenderID app.borrowerID
          (formatFloatMinimal offer.amount) with ⟨t, ht⟩ | ⟨m, ht⟩ | ⟨m, ht⟩
      · rw [ht]
        simp only []
        rcases RepoDisburseLoan_cases ro now (insertTransaction db t) offer.offerID
            app.borrowerID offer.lenderID app.applicationID offer.amount offer.interestRate
            (addDateMonths now offer.loanTermMonths) t.transactionID with hrep | ⟨m2, hrep⟩
        · rw [hrep]
          exact ⟨fun h0 => absurd h0 one_ne_zero, fun l hl => rfl,
            fun hne => absurd rfl (hne _)⟩
        · rw [hrep]
          exact ⟨fun h0 => absurd h0 one_ne_zero, fun l hl => absurd hl (by simp),
            fun _ => rfl⟩
      · rw [ht]
        exact ⟨fun _ => rfl, fun l hl => absurd hl (by simp), fun _ => rfl⟩
      · rw [ht]
        exact ⟨fun h0 => absurd h0 one_ne_zero, fun l hl => absurd hl (by simp),
          fun _ => rfl⟩

/-- Rows of an offer-status update: a row carrying the targeted id has
the new status. -/
lemma setOfferStatus_mem (db : LedgerDB) (oid s : String) :
    ∀ x ∈ (setOfferStatus db oid s).offers, x.offerID = oid → x.status = s := by
  intro x hx hid
  simp only [setOfferStatus, List.mem_map] at hx
  obtain ⟨o, ho, hfo⟩ := hx
  by_cases h : (o.offerID == oid) = true
  · rw [if_pos h] at hfo
    rw [← hfo]
  · rw [if_neg h] at hfo
    subst hfo
    exact absurd (beq_iff_eq.mpr hid) h

/-- Rows of an application-status update: a row carrying the targeted id
has the new status. -/
lemma setApplicationStatus_mem (db : LedgerDB) (aid s : String) :
    ∀ x ∈ (setApplicationStatus db aid s).applications, x.applicationID = aid → x.status = s := by
  intro x hx hid
  simp only [setApplicationStatus, List.mem_map] at hx
  obtain ⟨a, ha, hfa⟩ := hx
  by_cases h : (a.applicationID == aid) = true
  · rw [if_pos h] at hfa
    rw [← hfa]
  · rw [if_neg h] at hfa
    subst hfa
    exact absurd (beq_iff_eq.mpr hid) h

/-- A successful `service.DisburseLoan` run is fully characterized: the
offer and application heads were fetched, the transfer succeeded and
returned the recorded transaction, the created loan carries the offer's
terms, `next_payment_date = now + term months` and the transaction's id,
exactly one loan row and one transaction row were appended, and the
targeted offer and application rows are Funded afterwards. -/
lemma ServiceDisburseLoan_ok_shape (o : EthOracle) (ro : RepoOracle) (now : ℚ)
    (db : LedgerDB) (lid oid : String) (loan : Loan)
    (h : (ServiceDisburseLoan o ro now db lid oid).result = .ok loan) :
    ∃ (offer : LoanOffer) (orest : List LoanOffer) (app : Loanapplication)
      (arest : List Loanapplication) (t : Transaction),
      GetLoanOffers db oid "" "" "" = offer :: orest ∧
      GetLoanapplications db offer.applicationID "" "" = app :: arest ∧
      (TransferFunds o db offer.lenderID app.borrowerID (formatFloatMinimal offer.amount)).result = .ok t ∧
      loan = mkDisbursedLoan ro.freshLoanID offer.offerID app.borrowerID offer.lenderID
        app.applicationID offer.amount offer.interestRate now
        (addDateMonths now offer.loanTermMonths) t.transactionID ∧
      (ServiceDisburseLoan o ro now db lid oid).db.loans = db.loans ++ [loan] ∧
      (ServiceDisburseLoan o ro now db lid oid).db.transactions = db.transactions ++ [t] ∧
      (∀ x ∈ (ServiceDisburseLoan o ro now db lid oid).db.offers,
        x.offerID = offer.offerID → x.status = statusFunded) ∧
      (∀ x ∈ (ServiceDisburseLoan o ro now db lid oid).db.applications,
        x.applicationID = app.applicationID → x.status = statusFunded) := by
  unfold ServiceDisburseLoan at h ⊢
  cases hoff : GetLoanOffers db oid "" "" "" with
  | nil =>
    rw [hoff] at h
    exact absurd h (by simp)
  | cons offer orest =>
    rw [hoff] at h
    simp only [] at h ⊢
    cases happ : GetLoanapplications db offer.applicationID "" "" with
    | nil =>
      rw [happ] at h
      exact absurd h (by simp)
    | cons app arest =>
      rw [happ] at h
      simp only [] at h ⊢
      rcases TransferFunds_cases o db offer.lenderID app.borrowerID
          (formatFloatMinimal offer.amount) with ⟨t, ht⟩ | ⟨m, ht⟩ | ⟨m, ht⟩
      · rw [ht] at h ⊢
        simp only [] at h ⊢
        rcases RepoDisburseLoan_cases ro now (insertTransaction db t) offer.offerID
            app.borrowerID offer.lenderID app.applicationID offer.amount offer.interestRate
            (addDateMonths now offer.loanTermMonths) t.transactionID with hrep | ⟨m2, hrep⟩
        · rw [hrep] at h ⊢
          simp only [] at h
          have hloan : mkDisbursedLoan ro.freshLoanID offer.offerID app.borrowerID
              offer.lenderID app.applicationID offer.amount offer.interestRate now
              (addDateMonths now offer.loanTermMonths) t.transactionID = loan :=
            (GoOutcome.ok.injEq _ _).mp h
          refine ⟨offer, orest, app, arest, t, rfl, happ, ?_, hloan.symm, ?_, ?_, ?_, ?_⟩
          · rw [ht]
          · rw [← hloan]
            rfl
          · rfl
          · intro x hx hid
            exact setOfferStatus_mem _ _ _ x hx hid
          · intro x hx hid
            exact setApplicationStatus_mem _ _ _ x hx hid
        · rw [hrep] at h
          exact absurd h (by simp)
      · rw [ht] at h
        exact absurd h (by simp)
      · rw [ht] at h
        exact absurd h (by simp)

/-! Invariant preservation. -/

/-- The nonnegativity formula for the payable total. -/
lemma payFormula_nonneg (P R s npd now : ℚ) (hP : 0 ≤ P) (hR : 0 ≤ R) :
    0 ≤ P + P * R / 100 * ((if now - s < 0 then 0 else now - s) / 365) + 0 +
      (if npd < now then
        P * R / 100 / 12 * ((⌊(now - npd) / 30⌋ : ℤ) : ℚ) * (0.10 : ℚ)
      else 0) := by
  have hd : 0 ≤ (if now - s < 0 then 0 else now - s) := by
    split
    · exact le_refl 0
    · next hns => exact not_lt.mp hns
  have hint : 0 ≤ P * R / 100 * ((if now - s < 0 then 0 else now - s) / 365) := by
    apply mul_nonneg
    · positivity
    · exact div_nonneg hd (by norm_num)
  have hpen : 0 ≤ (if npd < now then
      P * R / 100 / 12 * ((⌊(now - npd) / 30⌋ : ℤ) : ℚ) * (0.10 : ℚ) else 0) := by
    split
    · next hlt =>
      have hfloor : (0 : ℤ) ≤ ⌊(now - npd) / 30⌋ := by
        apply Int.floor_nonneg.mpr
        have : (0 : ℚ) ≤ now - npd := by linarith
        positivity
      apply mul_nonneg
      · apply mul_nonneg
        · positivity
        · exact_mod_cast hfloor
      · norm_num
    · exact le_refl 0
  linarith

/-- A successful payable computation over a nonnegative store is
nonnegative. -/
lemma CalculateTotalPayable_nonneg (now : ℚ) (db : LedgerDB) (lid uid : String)
    (pb : PayableBreakdown) (h : Inv db)
    (hok : CalculateTotalPayable now db lid uid = .ok pb) : 0 ≤ pb.totalPayable := by
  unfold CalculateTotalPayable at hok
  cases hq : GetLoanDetails db lid "" "" "" "" "" with
  | nil =>
    rw [hq] at hok
    exact absurd hok (by simp)
  | cons loan lrest =>
    rw [hq] at hok
    simp only [] at hok
    by_cases hauth : loan.borrowerID ≠ uid ∧ loan.lenderID ≠ uid
    · rw [if_pos hauth] at hok
      exact absurd hok (by simp)
    · rw [if_neg hauth] at hok
      have hmem : loan ∈ db.loans := by
        apply GetLoanDetails_subset db lid "" "" "" "" "" loan
        rw [hq]
        exact List.mem_cons_self _ _
      obtain ⟨hP, hRem, hSet, hR⟩ := h.2 loan hmem
      have hpb := (GoOutcome.ok.injEq _ _).mp hok
      have hfield := congrArg PayableBreakdown.totalPayable hpb
      exact hfield ▸ payFormula_nonneg loan.totalPrinciple loan.interestRate
        loan.startDate loan.nextPaymentDate now hP hR

/-- An offer-status update preserves the invariant. -/
lemma Inv_setOfferStatus (db : LedgerDB) (oid s : String) (h : Inv db) :
    Inv (setOfferStatus db oid s) := by
  constructor
  · intro x hx
    simp only [setOfferStatus, List.mem_map] at hx
    obtain ⟨o, ho, hfo⟩ := hx
    have hinv := h.1 o ho
    by_cases hc : (o.offerID == oid) = true
    · rw [if_pos hc] at hfo
      rw [← hfo]
      exact hinv
    · rw [if_neg hc] at hfo
      rw [← hfo]
      exact hinv
  · exact h.2

/-- Inserting a validated offer preserves the invariant. -/
lemma Inv_insertOffer (db : LedgerDB) (o : LoanOffer) (h : Inv db)
    (ha : 0 ≤ o.amount) (hr : 0 ≤ o.interestRate) : Inv (insertOffer db o) := by
  constructor
  · intro x hx
    simp only [insertOffer, List.mem_append, List.mem_singleton] at hx
    rcases hx with hx | rfl
    · exact h.1 x hx
    · exact ⟨ha, hr⟩
  · exact h.2

/-- Inserting a loan with nonnegative money columns preserves the
invariant. -/
lemma Inv_insertLoan (db : LedgerDB) (l : Loan) (h : Inv db)
    (h1 : 0 ≤ l.totalPrinciple) (h2 : 0 ≤ l.remainingPrinciple)
    (h3 : 0 ≤ l.settledAmount) (h4 : 0 ≤ l.interestRate) : Inv (insertLoan db l) := by
  constructor
  · exact h.1
  · intro x hx
    simp only [insertLoan, List.mem_append, List.mem_singleton] at hx
    rcases hx with hx | rfl
    · exact h.2 x hx
    · exact ⟨h1, h2, h3, h4⟩

/-- The settlement row update with a nonnegative settled amount preserves
the invariant. -/
lemma Inv_applySettleLoan (db : LedgerDB) (lid : String) (sa ai now : ℚ)
    (h : Inv db) (hsa : 0 ≤ sa) : Inv (applySettleLoan db lid sa ai now) := by
  constructor
  · exact h.1
  · intro x hx
    simp only [applySettleLoan, List.mem_map] at hx
    obtain ⟨l, hl, hfl⟩ := hx
    have hinv := h.2 l hl
    by_cases hc : (l.loanID == lid) = true
    · rw [if_pos hc] at hfl
      rw [← hfl]
      exact ⟨hinv.1, le_refl 0, hsa, hinv.2.2.2⟩
    · rw [if_neg hc] at hfl
      rw [← hfl]
      exact hinv

/-- A disbursement run preserves the invariant whatever the external
outcomes were. -/
lemma Inv_ServiceDisburseLoan (o : EthOracle) (ro : RepoOracle) (now : ℚ)
    (db : LedgerDB) (lid oid : String) (h : Inv db) :
    Inv (ServiceDisburseLoan o ro now db lid oid).db := by
  unfold ServiceDisburseLoan
  cases hoff : GetLoanOffers db oid "" "" "" with
  | nil => exact h
  | cons offer orest =>
    simp only []
    have hoffmem : offer ∈ db.offers := by
      apply GetLoanOffers_subset db oid "" "" "" offer
      rw [hoff]
      exact List.mem_cons_self _ _
    obtain ⟨hoa, hor⟩ := h.1 offer hoffmem
    cases happ : GetLoanapplications db offer.applicationID "" "" with
    | nil => exact h
    | cons app arest =>
      simp only []
      rcases TransferFunds_cases o db offer.lenderID app.borrowerID
          (formatFloatMinimal offer.amount) with ⟨t, ht⟩ | ⟨m, ht⟩ | ⟨m, ht⟩
      · rw [ht]
        simp only []
        have h1 : Inv (insertTransaction db t) := h
        rcases RepoDisburseLoan_cases ro now (insertTransaction db t) offer.offerID
            app.borrowerID offer.lenderID app.applicationID offer.amount offer.interestRate
            (addDateMonths now offer.loanTermMonths) t.transactionID with hrep | ⟨m2, hrep⟩
        · rw [hrep]
          simp only []
          have h2 : Inv (insertLoan (insertTransaction db t)
              (mkDisbursedLoan ro.freshLoanID offer.offerID app.borrowerID offer.lenderID
                app.applicationID offer.amount offer.interestRate now
                (addDateMonths now offer.loanTermMonths) t.transactionID)) :=
            Inv_insertLoan _ _ h1 hoa hoa (le_refl 0) hor
          exact Inv_setOfferStatus _ _ _ h2
        · rw [hrep]
          exact h1
      · rw [ht]
        exact h
      · rw [ht]
        exact h

/-- A settlement run preserves the invariant whatever the external
outcomes were. -/
lemma Inv_ServiceSettleLoan (o : EthOracle) (ro : RepoOracle) (now : ℚ)
    (db : LedgerDB) (uid lid : String) (h : Inv db) :
    Inv (ServiceSettleLoan o ro now db uid lid).db := by
  unfold ServiceSettleLoan
  cases hq : GetLoanDetails db lid "" "" "" "" "" with
  | nil => exact h
  | cons loan lrest =>
    simp only []
    split
    · exact h
    · cases hcalc : CalculateTotalPayable now db loan.loanID uid with
      | error m => exact h
      | crash m => exact h
      | ok pb =>
        simp only []
        have hpb : 0 ≤ pb.totalPayable := CalculateTotalPayable_nonneg now db loan.loanID uid pb h hcalc
        rcases TransferFunds_cases o db uid loan.lenderID (formatFloat2 pb.totalPayable)
            with ⟨t, ht⟩ | ⟨m, ht⟩ | ⟨m, ht⟩
        · rw [ht]
          simp only []
          have h1 : Inv (insertTransaction db t) := h
          rcases RepoSettleLoan_cases ro now (insertTransaction db t) loan.loanID
              pb.totalPayable 0 t.transactionID with ⟨l0, hfind, hrep⟩ | ⟨m2, hrep⟩
          · rw [hrep]
            simp only []
            exact Inv_setOfferStatus _ _ _ (Inv_applySettleLoan _ _ _ _ _ h1 hpb)
          · rw [hrep]
            exact h1
        · rw [ht]
          exact h
        · rw [ht]
          exact h

/-- One operation preserves the invariant. -/
lemma Inv_stepOp (db : LedgerDB) (op : Op) (h : Inv db) : Inv (stepOp db op) := by
  cases op with
  | createApplication k f b a i t =>
    show Inv (ServiceCreateLoanapplication k f db b a i t).2
    unfold ServiceCreateLoanapplication
    repeat' split
    all_goals exact h
  | createOffer k f l a i t ap =>
    show Inv (ServiceCreateLoanOffer k f db l a i t ap).2
    unfold ServiceCreateLoanOffer
    split
    · exact h
    · split
      · exact h
      · next hvalid =>
        push_neg at hvalid
        exact Inv_insertOffer _ _ h (le_of_lt hvalid.2.1) (le_of_lt hvalid.2.2.1)
  | acceptOffer oid bid =>
    show Inv (ServiceAcceptOffer db oid bid).2
    unfold ServiceAcceptOffer AcceptLoanOffer
    split
    · exact h
    · exact Inv_setOfferStatus _ _ _ h
  | disburse o ro now l oid =>
    show Inv (ServiceDisburseLoan o ro now db l oid).db
    exact Inv_ServiceDisburseLoan o ro now db l oid h
  | settle o ro now u lid =>
    show Inv (ServiceSettleLoan o ro now db u lid).db
    exact Inv_ServiceSettleLoan o ro now db u lid h

/-- Any sequence of operations preserves the invariant. -/
lemma Inv_runOps (db : LedgerDB) (ops : List Op) (h : Inv db) : Inv (runOps db ops) := by
  induction ops generalizing db with
  | nil => exact h
  | cons op ops ih => exact ih _ (Inv_stepOp db op h)

/-! Claim theorems. -/

/-- Claim C6 (confirmed): for every loan snapshot and every `now`,
`CalculateTotalPayable` returns principal = the loan's total principal,
`interest = (principal * interestRate / 100) * max(0, now - start_date) / 365`,
`fees = 0`, `penalty = 0` when `now ≤ next_payment_date` and otherwise
`(principal * interestRate / 100 / 12) * floor(daysOverdue / 30) * 0.10`,
and `total = principal + interest + fees + penalty`. -/
theorem C6_payable_calculator_formula (now : ℚ) (db : LedgerDB) (lid uid : String)
    (loan : Loan) (rest : List Loan)
    (hq : GetLoanDetails db lid "" "" "" "" "" = loan :: rest)
    (hauth : loan.borrowerID = uid ∨ loan.lenderID = uid) :
    CalculateTotalPayable now db lid uid = .ok (specPayable now loan) :=
  CalculateTotalPayable_eq_spec now db lid uid loan rest hq hauth

/-- Witness for C6: for principal 1000 at 12%, started a full year before
now and due 30 days before now, the breakdown is interest 120, penalty 1,
total 1121. -/
theorem C6_payable_calculator_formula_witness :
    CalculateTotalPayable 0 dbSettleC "LN1" "B" = .ok (specPayable 0 loanActiveC) ∧
    specPayable 0 loanActiveC =
      { loanID := "LN1", principal := 1000, interest := 120, fees := 0
        penalty := 1, totalPayable := 1121 } :=
  ⟨C6_payable_calculator_formula 0 dbSettleC "LN1" "B" loanActiveC [] (by decide)
    (Or.inl (by decide)),
   by
    simp only [specPayable, specInterest, specPenalty, specDaysElapsed, loanActiveC,
      mkDisbursedLoan]
    norm_num⟩

/-- Claim C8 (confirmed): a supplied single-key identifier takes
precedence — `GetLoanOffers` with a non-empty offer id filters only by
that id whatever the other parameters are, `GetLoanapplications` does the
same for the application id, and without a single key the party id and
status act as an AND filter.  (Queries return plain lists, so an empty
result is a value, not an error.) -/
theorem C8_query_filter_precedence (db : LedgerDB) (oid aid bid lid st : String) :
    (oid ≠ "" → GetLoanOffers db oid aid lid st =
      db.offers.filter (fun x => x.offerID == oid)) ∧
    (lid ≠ "" → st ≠ "" → GetLoanOffers db "" "" lid st =
      db.offers.filter (fun x => x.lenderID == lid && x.status == st)) ∧
    (aid ≠ "" → GetLoanapplications db aid bid st =
      db.applications.filter (fun x => x.applicationID == aid)) ∧
    (bid ≠ "" → st ≠ "" → GetLoanapplications db "" bid st =
      db.applications.filter (fun x => x.borrowerID == bid && x.status == st)) :=
  ⟨fun h => GetLoanOffers_key db oid aid lid st h,
   fun h1 h2 => GetLoanOffers_compound db lid st h1 h2,
   fun h => GetLoanapplications_key db aid bid st h,
   fun h1 h2 => GetLoanapplications_compound db bid st h1 h2⟩

/-- Witness for C8: querying offer O1 while also passing a different
lender id returns exactly the offer matching O1, ignoring the lender
filter. -/
theorem C8_query_filter_precedence_witness :
    GetLoanOffers dbDisburseC "O1" "" "LX" "Open" =
      dbDisburseC.offers.filter (fun x => x.offerID == "O1") ∧
    GetLoanOffers dbDisburseC "O1" "" "LX" "Open" = [offerAcceptedC] :=
  ⟨(C8_query_filter_precedence dbDisburseC "O1" "" "" "LX" "Open").1 (by decide), by decide⟩

/-- Claim C4 (code_bug): the status update of `AcceptLoanOffer` is the
blind write `UPDATE loan_offers SET status = 'Accepted' WHERE offer_id = $1`
with no `status = 'Open'` guard: accepting an offer that is not Open
silently succeeds and overwrites its status, where the claim requires a
compare-and-swap that fails. -/
theorem C4_acceptOffer_blind_update (db : LedgerDB) (oid bid : String) (o0 : LoanOffer)
    (hfind : db.offers.find? (fun x => x.offerID == oid) = some o0)
    (_hstat : o0.status ≠ statusOpen) :
    (AcceptLoanOffer db oid bid).1 = .ok { o0 with status := statusAccepted } ∧
    (AcceptLoanOffer db oid bid).2 = setOfferStatus db oid statusAccepted := by
  unfold AcceptLoanOffer
  rw [hfind]
  exact ⟨rfl, rfl⟩

/-- Witness for C4: re-accepting the already-Funded offer O2 succeeds and
rewrites its status to Accepted. -/
theorem C4_acceptOffer_blind_update_witness :
    (AcceptLoanOffer dbFundedOfferC "O2" "B").1 =
      .ok { offerFundedC with status := statusAccepted } ∧
    (AcceptLoanOffer dbFundedOfferC "O2" "B").2 =
      setOfferStatus dbFundedOfferC "O2" statusAccepted :=
  C4_acceptOffer_blind_update dbFundedOfferC "O2" "B" offerFundedC (by decide) (by decide)

/-- Claim C9 (code_bug): for an offer id that matches no stored offer,
`service.DisburseLoan` does not return a NotFound error — the Go code
indexes `offer[0]` on the empty slice and panics.  The panic happens
before any transfer or store write, so funds and rows are untouched. -/
theorem C9_disburse_missing_offer_panics (o : EthOracle) (ro : RepoOracle) (now : ℚ)
    (db : LedgerDB) (lid oid : String) (hoid : oid ≠ "")
    (hmiss : db.offers.filter (fun x => x.offerID == oid) = []) :
    ServiceDisburseLoan o ro now db lid oid = ⟨.crash panicIndexOutOfRange, db, 0⟩ := by
  unfold ServiceDisburseLoan
  rw [GetLoanOffers_key db oid "" "" "" hoid, hmiss]

/-- Witness for C9: disbursing the unknown offer id OX panics with the
store untouched. -/
theorem C9_disburse_missing_offer_panics_witness :
    ServiceDisburseLoan oracleAllOK repoAllOK 0 dbDisburseC "L" "OX" =
      ⟨.crash panicIndexOutOfRange, dbDisburseC, 0⟩ :=
  C9_disburse_missing_offer_panics oracleAllOK repoAllOK 0 dbDisburseC "L" "OX"
    (by decide) (by decide)

/-- Claim C1 counterexample: with every external step succeeding but the
loan insert failing, the transfer is broadcast (funds moved) yet no loan
row exists afterwards — refuting "a Loan row is created iff the transfer
succeeded" — and the only way to retry, calling `DisburseLoan` again,
broadcasts a second transfer for the same disbursement: no
persistence-only retry path using the stored transfer reference exists. -/
theorem C1_disbursement_retry_counterexample :
    (ServiceDisburseLoan oracleAllOK repoInsertFails 0 dbDisburseC "L" "O1").broadcasts = 1 ∧
    (ServiceDisburseLoan oracleAllOK repoInsertFails 0 dbDisburseC "L" "O1").result =
      .error errCreateLoanRecord ∧
    (ServiceDisburseLoan oracleAllOK repoInsertFails 0 dbDisburseC "L" "O1").db.loans = [] ∧
    (ServiceDisburseLoan oracleAllOK repoInsertFails 0
      (ServiceDisburseLoan oracleAllOK repoInsertFails 0 dbDisburseC "L" "O1").db
      "L" "O1").broadcasts = 1 := by
  decide

/-- Claim C1 (corrected): what the code guarantees is weaker — if the
transfer did not execute (no broadcast), the store is fully unchanged and
retry is safe; a successful run broadcast exactly once; and a failed run
never creates a loan row.  There is no retry-persistence-only path: a
retry is a fresh `DisburseLoan` call, which broadcasts again (see the
counterexample). -/
theorem C1_disbursement_failure_semantics (o : EthOracle) (ro : RepoOracle) (now : ℚ)
    (db : LedgerDB) (lid oid : String) :
    ((ServiceDisburseLoan o ro now db lid oid).broadcasts = 0 →
      (ServiceDisburseLoan o ro now db lid oid).db = db) ∧
    (∀ l, (ServiceDisburseLoan o ro now db lid oid).result = .ok l →
      (ServiceDisburseLoan o ro now db lid oid).broadcasts = 1) ∧
    ((∀ l, (ServiceDisburseLoan o ro now db lid oid).result ≠ .ok l) →
      (ServiceDisburseLoan o ro now db lid oid).db.loans = db.loans) :=
  ServiceDisburseLoan_facts o ro now db lid oid

/-- Witness for C1: a failed broadcast leaves the store untouched, and a
failed loan insert leaves the loan table untouched. -/
theorem C1_disbursement_failure_semantics_witness :
    (ServiceDisburseLoan oracleSendFails repoAllOK 0 dbDisburseC "L" "O1").db = dbDisburseC ∧
    (ServiceDisburseLoan oracleAllOK repoInsertFails 0 dbDisburseC "L" "O1").db.loans =
      dbDisburseC.loans :=
  ⟨(C1_disbursement_failure_semantics oracleSendFails repoAllOK 0 dbDisburseC "L" "O1").1
      (by decide),
   (C1_disbursement_failure_semantics oracleAllOK repoInsertFails 0 dbDisburseC "L" "O1").2.2
      (by
        intro l hl
        rw [(by decide : (ServiceDisburseLoan oracleAllOK repoInsertFails 0 dbDisburseC
          "L" "O1").result = .error errCreateLoanRecord)] at hl
        exact absurd hl (by simp))⟩

/-- Claim C5 (confirmed): a successful disbursement creates exactly one
loan row, with `total_principle = remaining_principle = the offer amount`,
the offer's rate, status `'active'`, `start_date = now`,
`next_payment_date = now + term months`, and
`disbursement_transaction_id` = the id of the recorded disbursement
transaction (the one the successful transfer returned and appended); the
targeted offer and application rows are Funded afterwards; and the
repository transaction is all-or-nothing — any error leaves the store
exactly as it was. -/
theorem C5_disbursement_creates_loan_atomically (o : EthOracle) (ro ro2 : RepoOracle)
    (now : ℚ) (db db2 : LedgerDB) (lid oid oid2 bid2 lid2 aid2 dtid2 : String)
    (tp2 ir2 npd2 : ℚ) :
    (∀ loan, (ServiceDisburseLoan o ro now db lid oid).result = .ok loan →
      ∃ (offer : LoanOffer) (app : Loanapplication) (t : Transaction),
        (GetLoanOffers db oid "" "" "").head? = some offer ∧
        (GetLoanapplications db offer.applicationID "" "").head? = some app ∧
        (TransferFunds o db offer.lenderID app.borrowerID
          (formatFloatMinimal offer.amount)).result = .ok t ∧
        loan.totalPrinciple = offer.amount ∧
        loan.remainingPrinciple = offer.amount ∧
        loan.interestRate = offer.interestRate ∧
        loan.status = statusActive ∧
        loan.startDate = now ∧
        loan.nextPaymentDate = addDateMonths now offer.loanTermMonths ∧
        loan.disbursementTransactionID = t.transactionID ∧
        (ServiceDisburseLoan o ro now db lid oid).db.loans = db.loans ++ [loan] ∧
        (ServiceDisburseLoan o ro now db lid oid).db.transactions =
          db.transactions ++ [t] ∧
        (∀ x ∈ (ServiceDisburseLoan o ro now db lid oid).db.offers,
          x.offerID = offer.offerID → x.status = statusFunded) ∧
        (∀ x ∈ (ServiceDisburseLoan o ro now db lid oid).db.applications,
          x.applicationID = app.applicationID → x.status = statusFunded)) ∧
    (∀ m, (RepoDisburseLoan ro2 now db2 oid2 bid2 lid2 aid2 tp2 ir2 npd2 dtid2).1 = .error m →
      (RepoDisburseLoan ro2 now db2 oid2 bid2 lid2 aid2 tp2 ir2 npd2 dtid2).2 = db2) := by
  constructor
  · intro loan hok
    obtain ⟨offer, orest, app, arest, t, hoff, happ, htr, hloan, hloans, htxns, hoffers, happs⟩ :=
      ServiceDisburseLoan_ok_shape o ro now db lid oid loan hok
    refine ⟨offer, app, t, by rw [hoff]; rfl, by rw [happ]; rfl, htr, ?_, ?_, ?_, ?_, ?_, ?_,
      ?_, hloans, htxns, hoffers, happs⟩
    all_goals rw [hloan]
    all_goals rfl
  · intro m hm
    rcases RepoDisburseLoan_cases ro2 now db2 oid2 bid2 lid2 aid2 tp2 ir2 npd2 dtid2
        with hrep | ⟨m2, hrep⟩
    · rw [hrep] at hm
      exact absurd hm (by simp)
    · rw [hrep]

/-- Witness for C5: the successful concrete disbursement of offer O1 —
including the created loan's disbursement transaction id — and the
rolled-back store after a failed loan insert. -/
theorem C5_disbursement_creates_loan_atomically_witness :
    (∃ (offer : LoanOffer) (app : Loanapplication) (t : Transaction),
      (GetLoanOffers dbDisburseC "O1" "" "" "").head? = some offer ∧
      (GetLoanapplications dbDisburseC offer.applicationID "" "").head? = some app ∧
      (TransferFunds oracleAllOK dbDisburseC offer.lenderID app.borrowerID
        (formatFloatMinimal offer.amount)).result = .ok t ∧
      loanDisbursedW.totalPrinciple = offer.amount ∧
      loanDisbursedW.remainingPrinciple = offer.amount ∧
      loanDisbursedW.interestRate = offer.interestRate ∧
      loanDisbursedW.status = statusActive ∧
      loanDisbursedW.startDate = 0 ∧
      loanDisbursedW.nextPaymentDate = addDateMonths 0 offer.loanTermMonths ∧
      loanDisbursedW.disbursementTransactionID = t.transactionID ∧
      (ServiceDisburseLoan oracleAllOK repoAllOK 0 dbDisburseC "L" "O1").db.loans =
        dbDisburseC.loans ++ [loanDisbursedW] ∧
      (ServiceDisburseLoan oracleAllOK repoAllOK 0 dbDisburseC "L" "O1").db.transactions =
        dbDisburseC.transactions ++ [t] ∧
      (∀ x ∈ (ServiceDisburseLoan oracleAllOK repoAllOK 0 dbDisburseC "L" "O1").db.offers,
        x.offerID = offer.offerID → x.status = statusFunded) ∧
      (∀ x ∈ (ServiceDisburseLoan oracleAllOK repoAllOK 0 dbDisburseC "L" "O1").db.applications,
        x.applicationID = app.applicationID → x.status = statusFunded)) ∧
    (RepoDisburseLoan repoInsertFails 0 dbDisburseC "O1" "B" "L" "A1" 1000 12 180 "T1").2 =
      dbDisburseC :=
  ⟨(C5_disbursement_creates_loan_atomically oracleAllOK repoAllOK repoInsertFails 0
      dbDisburseC dbDisburseC "L" "O1" "O1" "B" "L" "A1" "T1" 1000 12 180).1
      loanDisbursedW (by rfl),
   (C5_disbursement_creates_loan_atomically oracleAllOK repoAllOK repoInsertFails 0
      dbDisburseC dbDisburseC "L" "O1" "O1" "B" "L" "A1" "T1" 1000 12 180).2
      errCreateLoanRecord (by decide)⟩

/-- Claim C3 counterexample: settling the already-closed loan LN1 does
not fail with an invalid-state error — `SettleLoan` performs no status
check at all, proceeds past validation into the fund-transfer step, and
fails there with the amount-format transfer error (the same outcome an
active loan gets).  The store happens to stay unchanged only because the
transfer step itself fails. -/
theorem C3_settle_closed_loan_counterexample :
    loanClosedC.status ≠ statusActive ∧
    (ServiceSettleLoan oracleAllOK repoAllOK 0 dbSettleClosedC "B" "LN1").result =
      .error (msgTransferFundsFailed ++ errInvalidAmountFormat) ∧
    (ServiceSettleLoan oracleAllOK repoAllOK 0 dbSettleClosedC "B" "LN1").db =
      dbSettleClosedC := by
  have h := ServiceSettleLoan_reaches_format_error oracleAllOK repoAllOK 0 dbSettleClosedC
    "B" "LN1" loanClosedC [] "0xB" "0xL" "keyB" (by decide) (by decide) (by decide)
    (by decide) (by decide) (by decide) (by decide)
  exact ⟨by decide, by rw [h], by rw [h]⟩

/-- Claim C3 (corrected): `SettleLoan` checks only that the loan exists
and that the caller is its borrower; the loan's status is never examined,
so a non-active loan sails past validation into the transfer step.  It
then fails with the amount-format transfer error — not an invalid-state
error — leaving the store unchanged and broadcasting nothing. -/
theorem C3_settle_ignores_loan_status (o : EthOracle) (ro : RepoOracle) (now : ℚ)
    (db : LedgerDB) (uid lid : String) (loan : Loan) (rest : List Loan) (w1 w2 kk : String)
    (_hstat : loan.status ≠ statusActive)
    (hlid : lid ≠ "")
    (hq : GetLoanDetails db lid "" "" "" "" "" = loan :: rest)
    (hb : loan.borrowerID = uid)
    (hw1 : lookupStr db.wallets uid = some w1)
    (hw2 : lookupStr db.wallets loan.lenderID = some w2)
    (hk : lookupStr db.privateKeys uid = some kk)
    (hko : o.keyOK = true) :
    ServiceSettleLoan o ro now db uid lid =
      ⟨.error (msgTransferFundsFailed ++ errInvalidAmountFormat), db, 0⟩ :=
  ServiceSettleLoan_reaches_format_error o ro now db uid lid loan rest w1 w2 kk
    hlid hq hb hw1 hw2 hk hko

/-- Witness for C3: the concrete closed loan LN1. -/
theorem C3_settle_ignores_loan_status_witness :
    ServiceSettleLoan oracleAllOK repoAllOK 0 dbSettleClosedC "B" "LN1" =
      ⟨.error (msgTransferFundsFailed ++ errInvalidAmountFormat), dbSettleClosedC, 0⟩ :=
  C3_settle_ignores_loan_status oracleAllOK repoAllOK 0 dbSettleClosedC "B" "LN1"
    loanClosedC [] "0xB" "0xL" "keyB" (by decide) (by decide) (by decide) (by decide)
    (by decide) (by decide) (by decide) (by decide)

/-- Claim C10 (confirmed, implicit): `SettleLoan` formats the payable
with `FormatFloat(.., 'f', 2, 64)` — a string that always contains a
decimal point — while `TransferFunds` parses the amount with
`big.Int.SetString(s, 10)`, which rejects any string containing one.
Consequently every settle attempt that reaches the transfer returns the
`invalid amount format` transfer error, before any settlement transaction
row or ledger update is written, leaving loan, offer and application
unchanged. -/
theorem C10_settle_amount_format_mismatch (o : EthOracle) (ro : RepoOracle) (now : ℚ)
    (db : LedgerDB) (uid lid : String) (loan : Loan) (rest : List Loan) (w1 w2 kk : String)
    (hlid : lid ≠ "")
    (hq : GetLoanDetails db lid "" "" "" "" "" = loan :: rest)
    (hb : loan.borrowerID = uid)
    (hw1 : lookupStr db.wallets uid = some w1)
    (hw2 : lookupStr db.wallets loan.lenderID = some w2)
    (hk : lookupStr db.privateKeys uid = some kk)
    (hko : o.keyOK = true) :
    bigIntSetString10 (formatFloat2 ((specPayable now loan).totalPayable)) = none ∧
    ServiceSettleLoan o ro now db uid lid =
      ⟨.error (msgTransferFundsFailed ++ errInvalidAmountFormat), db, 0⟩ :=
  ⟨bigIntSetString10_formatFloat2 _,
   ServiceSettleLoan_reaches_format_error o ro now db uid lid loan rest w1 w2 kk
     hlid hq hb hw1 hw2 hk hko⟩

/-- Witness for C10: the concrete active loan LN1 — its settle attempt
returns the wrapped `invalid amount format` error with the store
untouched. -/
theorem C10_settle_amount_format_mismatch_witness :
    bigIntSetString10 (formatFloat2 ((specPayable 0 loanActiveC).totalPayable)) = none ∧
    ServiceSettleLoan oracleAllOK repoAllOK 0 dbSettleC "B" "LN1" =
      ⟨.error (msgTransferFundsFailed ++ errInvalidAmountFormat), dbSettleC, 0⟩ :=
  C10_settle_amount_format_mismatch oracleAllOK repoAllOK 0 dbSettleC "B" "LN1"
    loanActiveC [] "0xB" "0xL" "keyB" (by decide) (by decide) (by decide) (by decide)
    (by decide) (by decide) (by decide)

/-- Claim C2 (code_bug): the settlement persistence diverges from the
claim in three ways, shown at the concrete loan LN1 (principal 1000 at
12%, one year of interest accrued): (1) the service-level settlement
never succeeds at all — the amount string "1121.00" fails the big.Int
parse; (2) even at the repository level with the service's actual
arguments, the row is written with `accrued_interest = 0` (the literal
zero the service passes), although the computed interest component is
120; and (3) `settleLoanQuery` carries no `settlement_transaction_id`
column, so the passed reference "T1" is discarded and the field stays
empty. -/
theorem C2_settle_persists_wrong_fields :
    (ServiceSettleLoan oracleAllOK repoAllOK 0 dbSettleC "B" "LN1").result =
      .error (msgTransferFundsFailed ++ errInvalidAmountFormat) ∧
    (RepoSettleLoan repoAllOK 0 dbSettleC "LN1" 1121 0 "T1").1 =
      .ok (settleLoanRow loanActiveC 1121 0 0) ∧
    (settleLoanRow loanActiveC 1121 0 0).accruedInterest = 0 ∧
    (settleLoanRow loanActiveC 1121 0 0).settlementTransactionID = "" ∧
    (specPayable 0 loanActiveC).interest = 120 := by
  have h := ServiceSettleLoan_reaches_format_error oracleAllOK repoAllOK 0 dbSettleC
    "B" "LN1" loanActiveC [] "0xB" "0xL" "keyB" (by decide) (by decide) (by decide)
    (by decide) (by decide) (by decide) (by decide)
  refine ⟨by rw [h], by decide, by decide, by decide, ?_⟩
  simp only [specPayable, specInterest, specDaysElapsed, loanActiveC, mkDisbursedLoan]
  norm_num

/-- Claim C7 (confirmed): starting from any store satisfying the
nonnegativity invariant, any sequence of operations — creations,
acceptances, disbursements and settlements, under any schedule of
external outcomes — leaves every loan's `remaining_principle` and
`settled_amount` nonnegative. -/
theorem C7_no_negative_balances (db : LedgerDB) (ops : List Op) (h : Inv db) :
    ∀ l ∈ (runOps db ops).loans, 0 ≤ l.remainingPrinciple ∧ 0 ≤ l.settledAmount := by
  intro l hl
  obtain ⟨h1, h2, h3, h4⟩ := (Inv_runOps db ops h).2 l hl
  exact ⟨h2, h3⟩

/-- Witness for C7: the demonstration run (create, offer, accept,
disburse, settle) from the initial store, applied to the loan it
creates. -/
theorem C7_no_negative_balances_witness :
    0 ≤ loanDisbursedW.remainingPrinciple ∧ 0 ≤ loanDisbursedW.settledAmount :=
  C7_no_negative_balances dbInitC opsDemoC
    ⟨fun x hx => absurd hx (List.not_mem_nil x), fun x hx => absurd hx (List.not_mem_nil x)⟩
    loanDisbursedW
    (by rw [(by rfl : (runOps dbInitC opsDemoC).loans = [loanDisbursedW])]
        exact List.mem_singleton_self _)

end ChainBank
